import Mathlib

/-!
Verification of `src/ak.py`, a single-page code-review tool.

The embedding mirrors the Python source shallowly:

* Python's standard-library parser `ast.parse` is external to the repository,
  so it is modelled as an explicit parameter `parse : String → Option PyAst`;
  an exception raised by the parser is modelled as `Option.none`
  (the source wraps the parse in `try/except Exception`).
* A Python abstract-syntax tree is modelled as a node kind together with a
  list of children; `ast.walk` visits every node at every nesting depth, so
  `isinstance`-counting over `ast.walk` is modelled by `countNode`, which
  counts matching nodes in the whole tree.  `ast.FunctionDef`,
  `ast.AsyncFunctionDef`, `ast.ClassDef` and `ast.Lambda` are distinct,
  unrelated classes in CPython (none is a subclass of another), hence
  distinct kinds here.
* `str.splitlines` is modelled by `pySplitlines` over the characters of the
  string, with Python's line-boundary set (`\r\n` is a single boundary).
* `str.strip()` is modelled by `pyStrip` with Python's whitespace set.
* The remote model call (`chain.invoke`) is external, modelled as a
  parameter `invoke : String → Except String String`; an exception carries
  its detail string in `Except.error`.
* Side effects visible to the user or the log (`st.error`, `logging.error`)
  are returned explicitly as a list of emitted messages.
-/

namespace AK

/-- Kinds of Python AST nodes distinguished by the program.  `other` stands
for every node class that is not a function definition, async function
definition, class definition or lambda (e.g. `Module`, `Assign`, `Pass`,
`arguments`, `Name`). -/
inductive PyKind where
  | module
  | functionDef
  | asyncFunctionDef
  | classDef
  | lambdaExpr
  | other
deriving DecidableEq

/-- A Python abstract syntax tree: a node kind and its child subtrees. -/
inductive PyAst where
  | node (kind : PyKind) (children : List PyAst)

mutual

/-- `countNode k t` = number of nodes of kind `k` anywhere in `t`, at every
nesting depth — the model of `len([n for n in ast.walk(tree) if isinstance(n, C)])`
for the class `C` corresponding to `k`. -/
def countNode (k : PyKind) : PyAst → Nat
  | .node k2 cs => (if k2 = k then 1 else 0) + countNodeList k cs

/-- Sum of `countNode k` over a list of subtrees. -/
def countNodeList (k : PyKind) : List PyAst → Nat
  | [] => 0
  | c :: cs => countNode k c + countNodeList k cs

end

/-- Python line-boundary characters other than `'\r'` (which is handled
separately so that `"\r\n"` counts as a single boundary), as recognised by
`str.splitlines`. -/
def isLineBreak (c : Char) : Bool :=
  c = '\n' || c = '\x0b' || c = '\x0c' ||
  c = '\x1c' || c = '\x1d' || c = '\x1e' || c = '\x85' ||
  c = '\u2028' || c = '\u2029'

/-- Worker for `pySplitlines`: `acc` holds the current (reversed) line. -/
def pySplitlinesAux : List Char → List Char → List (List Char)
  | [], acc => if acc = [] then [] else [acc.reverse]
  | '\r' :: '\n' :: rest, acc => acc.reverse :: pySplitlinesAux rest []
  | '\r' :: rest, acc => acc.reverse :: pySplitlinesAux rest []
  | c :: rest, acc =>
    if isLineBreak c then acc.reverse :: pySplitlinesAux rest []
    else pySplitlinesAux rest (c :: acc)

/-- Model of Python `str.splitlines()`: split on line boundaries, trailing
content without a trailing boundary forms a final line, and a trailing
boundary does not create an extra empty line. -/
def pySplitlines (s : String) : List String :=
  (pySplitlinesAux s.data []).map (fun l => String.mk l)

/-- Model of `get_code_stats` (src/ak.py lines 30–39): try to parse the code;
on success count `FunctionDef` and `ClassDef` nodes over `ast.walk`; on a
parse exception (`parse code = none`) both counts are 0.  The line count
`len(code.splitlines())` is computed outside the `try` block either way.
Returns `(num_lines, num_functions, num_classes)`. -/
def get_code_stats (parse : String → Option PyAst) (code : String) :
    Nat × Nat × Nat :=
  match parse code with
  | some tree =>
      ((pySplitlines code).length,
       countNode PyKind.functionDef tree,
       countNode PyKind.classDef tree)
  | none => ((pySplitlines code).length, 0, 0)

/-- Model of `get_code_from_upload` (src/ak.py lines 45–52).  The uploaded
file is its raw bytes (`Option` because the upload control may be empty);
the UTF-8 codec is external standard-library code, passed as `decodeUtf8`,
whose exception carries the message interpolated into `st.error`.  The
second component is the list of user-visible error messages displayed. -/
def get_code_from_upload (decodeUtf8 : List Nat → Except String String)
    (uploaded_file : Option (List Nat)) : String × List String :=
  match uploaded_file with
  | none => ("", [])
  | some bs =>
    match decodeUtf8 bs with
    | .ok code => (code, [])
    | .error e => ("", ["Error reading file: " ++ e])

/-- The fixed review prompt template (src/ak.py lines 20–25), with one
substitution slot `{code}`. -/
def promptTemplate : String :=
  "\n        You are an advanced software engineer and code reviewer. Carefully check the following code for errors, suggest the correct code, and explain the required changes. Think step by step and be thorough in your review.\n\nCode:\n{code}\n\nResponse:\n    "

/-- Rendering the prompt: substitute the code into the template slot, the
model of `PromptTemplate` formatting with `input_variables=['code']`. -/
def renderPrompt (code : String) : String :=
  promptTemplate.replace "{code}" code

/-- Model of `review_code` (src/ak.py lines 54–62): invoke the chain on the
rendered prompt; on success return the model's text; on any exception `e`
log `"Error during LLM review: e"` and return `"Error during review: e"`.
The second component is the list of log messages emitted
(`logging.error`). -/
def review_code (invoke : String → Except String String) (code : String) :
    String × List String :=
  match invoke (renderPrompt code) with
  | .ok result => (result, [])
  | .error e => ("Error during review: " ++ e, ["Error during LLM review: " ++ e])

/-- Python whitespace characters stripped by `str.strip()` (the characters
for which `str.isspace` holds). -/
def isPySpace (c : Char) : Bool :=
  c = ' ' || c = '\t' || c = '\n' || c = '\r' || c = '\x0b' || c = '\x0c' ||
  c = '\x1c' || c = '\x1d' || c = '\x1e' || c = '\x1f' || c = '\x85' || c = '\xa0' ||
  c = '\u1680' || c = '\u2000' || c = '\u2001' || c = '\u2002' || c = '\u2003' ||
  c = '\u2004' || c = '\u2005' || c = '\u2006' || c = '\u2007' || c = '\u2008' ||
  c = '\u2009' || c = '\u200a' || c = '\u2028' || c = '\u2029' || c = '\u202f' ||
  c = '\u205f' || c = '\u3000'

/-- Model of Python `str.strip()`: drop leading and trailing whitespace. -/
def pyStrip (s : String) : String :=
  String.mk (((s.data.dropWhile isPySpace).reverse.dropWhile isPySpace).reverse)

/-- The warning shown for an empty or whitespace-only submission
(src/ak.py line 90). -/
def warning_message : String :=
  "Please paste your code or upload a file before submitting."

/-- What the review button press produces for the user. -/
inductive ReviewOutcome where
  | warning (msg : String)
  | reviewed (result : String)
deriving DecidableEq

/-- Model of the review-button branch of `main` (src/ak.py lines 88–97):
if the stripped submission is empty (Python falsiness of `usercode.strip()`)
show the warning, otherwise call `review_code` and display its result.
The second component is the list of log messages emitted. -/
def review_action (invoke : String → Except String String) (usercode : String) :
    ReviewOutcome × List String :=
  if pyStrip usercode = "" then (.warning warning_message, [])
  else
    ((ReviewOutcome.reviewed (review_code invoke usercode).1),
     (review_code invoke usercode).2)

mutual

/-- `noDefNoClass t` holds when no node of `t`, at any depth, is a function
definition, async function definition or class definition — i.e. the source
contains no `def`, `async def` or `class` statement (lambdas allowed). -/
def noDefNoClass : PyAst → Bool
  | .node k cs =>
    (!(k = PyKind.functionDef || k = PyKind.asyncFunctionDef || k = PyKind.classDef))
      && noDefNoClassList cs

/-- `noDefNoClass` over a list of subtrees. -/
def noDefNoClassList : List PyAst → Bool
  | [] => true
  | c :: cs => noDefNoClass c && noDefNoClassList cs

end

/-- The CPython tree for `"def f():\n    pass\n"`: a `Module` whose body is
one `FunctionDef`; walking the `FunctionDef` additionally visits its
`arguments` node and its `Pass` statement. -/
def astDefF : PyAst :=
  .node .module [.node .functionDef [.node .other [], .node .other []]]

/-- The CPython tree for `"f = lambda x: x"`: a `Module` whose body is one
`Assign` whose value is a `Lambda` (visiting its `arguments` and body
`Name`); it contains no `FunctionDef` or `ClassDef` node. -/
def astLambdaOnly : PyAst :=
  .node .module
    [.node .other
      [.node .other [], .node .lambdaExpr [.node .other [], .node .other []]]]

theorem get_code_stats_fst (parse : String → Option PyAst) (code : String) :
    (get_code_stats parse code).1 = (pySplitlines code).length := by
  cases h : parse code <;> simp [get_code_stats, h]

mutual

theorem countNode_eq_zero_of_noDefNoClass :
    ∀ t : PyAst, noDefNoClass t = true →
      countNode PyKind.functionDef t = 0 ∧ countNode PyKind.classDef t = 0
  | .node k cs, h => by
    simp only [noDefNoClass, Bool.and_eq_true, Bool.not_eq_true', Bool.or_eq_false_iff,
      decide_eq_false_iff_not] at h
    obtain ⟨⟨⟨h1, h2⟩, h3⟩, hcs⟩ := h
    have ih := countNodeList_eq_zero_of_noDefNoClassList cs hcs
    simp only [countNode, ih.1, ih.2]
    constructor <;> simp [h1, h3]

theorem countNodeList_eq_zero_of_noDefNoClassList :
    ∀ cs : List PyAst, noDefNoClassList cs = true →
      countNodeList PyKind.functionDef cs = 0 ∧ countNodeList PyKind.classDef cs = 0
  | [], _ => by simp [countNodeList]
  | c :: cs, h => by
    simp only [noDefNoClassList, Bool.and_eq_true] at h
    have ih1 := countNode_eq_zero_of_noDefNoClass c h.1
    have ih2 := countNodeList_eq_zero_of_noDefNoClassList cs h.2
    simp [countNodeList, ih1.1, ih1.2, ih2.1, ih2.2]

end

theorem pyStrip_eq_empty_of_all_space (s : String) (h : s.data.all isPySpace = true) :
    pyStrip s = "" := by
  unfold pyStrip
  have hd : s.data.dropWhile isPySpace = [] := by
    rw [List.dropWhile_eq_nil_iff]
    intro x hx
    exact List.all_eq_true.mp h x hx
  simp [hd]

/-- Claim C1: for every string that parses successfully, `get_code_stats`
returns a function count equal to the number of function-definition nodes at
every nesting depth of the tree, and a class count equal to the number of
class-definition nodes at every nesting depth (both counted over the whole
walk of the tree). -/
theorem stats_count_defs_at_all_depths (parse : String → Option PyAst)
    (code : String) (tree : PyAst) (h : parse code = some tree) :
    (get_code_stats parse code).2.1 = countNode PyKind.functionDef tree ∧
    (get_code_stats parse code).2.2 = countNode PyKind.classDef tree := by
  simp [get_code_stats, h]

/-- Witness for C1 at the concrete tree of `"def f():\n    pass\n"`. -/
theorem stats_count_defs_at_all_depths_witness :
    (get_code_stats (fun _ => some astDefF) "def f():\n    pass\n").2.1 =
      countNode PyKind.functionDef astDefF ∧
    (get_code_stats (fun _ => some astDefF) "def f():\n    pass\n").2.2 =
      countNode PyKind.classDef astDefF :=
  stats_count_defs_at_all_depths (fun _ => some astDefF) "def f():\n    pass\n"
    astDefF rfl

/-- Claim C2: whenever parsing fails (the parser raises, modelled as
`parse code = none`), `get_code_stats` returns function count 0 and class
count 0, while the line count still equals the line count of the raw
text. -/
theorem stats_parse_failure (parse : String → Option PyAst) (code : String)
    (h : parse code = none) :
    get_code_stats parse code = ((pySplitlines code).length, 0, 0) := by
  simp [get_code_stats, h]

/-- Witness for C2 at a parser that always fails, on the text `"a\nb"`. -/
theorem stats_parse_failure_witness :
    get_code_stats (fun _ => none) "a\nb" = ((pySplitlines "a\nb").length, 0, 0) :=
  stats_parse_failure (fun _ => none) "a\nb" rfl

/-- Claim C3: the line count splits on line boundaries and counts trailing
content without a trailing newline as a line: for every parser (so
regardless of whether the input parses), the line count of `""` is 0, of
`"a\nb"` is 2, and of `"a\nb\n"` is 2. -/
theorem stats_line_count_examples (parse : String → Option PyAst) :
    (get_code_stats parse "").1 = 0 ∧
    (get_code_stats parse "a\nb").1 = 2 ∧
    (get_code_stats parse "a\nb\n").1 = 2 := by
  refine ⟨?_, ?_, ?_⟩ <;> rw [get_code_stats_fst] <;> decide

/-- Witness for C3 at a parser that always fails. -/
theorem stats_line_count_examples_witness :
    (get_code_stats (fun _ => none) "").1 = 0 ∧
    (get_code_stats (fun _ => none) "a\nb").1 = 2 ∧
    (get_code_stats (fun _ => none) "a\nb\n").1 = 2 :=
  stats_line_count_examples (fun _ => none)

/-- Claim C4: `review_code` never raises past its boundary: for every code
string it returns a (result, log) pair, and on any failure of the remote
call it returns a user-visible string that embeds the error's detail and
logs the error. -/
theorem review_code_never_raises_and_embeds_error
    (invoke : String → Except String String) (code : String) :
    (∃ s logs, review_code invoke code = (s, logs)) ∧
    (∀ e, invoke (renderPrompt code) = Except.error e →
      (review_code invoke code).1 = "Error during review: " ++ e ∧
      (review_code invoke code).2 = ["Error during LLM review: " ++ e]) := by
  refine ⟨⟨(review_code invoke code).1, (review_code invoke code).2, rfl⟩, ?_⟩
  intro e he
  simp [review_code, he]

/-- Witness for C4 at a remote call that always fails with detail
`"boom"`. -/
theorem review_code_never_raises_and_embeds_error_witness :
    (review_code (fun _ => Except.error "boom") "x").1 =
      "Error during review: " ++ "boom" ∧
    (review_code (fun _ => Except.error "boom") "x").2 =
      ["Error during LLM review: " ++ "boom"] :=
  (review_code_never_raises_and_embeds_error (fun _ => Except.error "boom") "x").2
    "boom" rfl

/-- Claim C5: when the review action is triggered with an empty or
whitespace-only submission, the warning message is always shown, nothing is
logged, and the remote model call is never attempted: the outcome is
identical for every possible remote call. -/
theorem empty_submission_warns (invoke invoke2 : String → Except String String)
    (usercode : String) (h : usercode.data.all isPySpace = true) :
    review_action invoke usercode = (ReviewOutcome.warning warning_message, []) ∧
    review_action invoke usercode = review_action invoke2 usercode := by
  have hs := pyStrip_eq_empty_of_all_space usercode h
  constructor <;> simp [review_action, hs]

/-- Witness for C5 at the whitespace-only submission `"  \n\t"`, with two
remote calls that behave differently. -/
theorem empty_submission_warns_witness :
    review_action (fun _ => Except.ok "r") "  \n\t" =
      (ReviewOutcome.warning warning_message, []) ∧
    review_action (fun _ => Except.ok "r") "  \n\t" =
      review_action (fun _ => Except.error "e") "  \n\t" :=
  empty_submission_warns (fun _ => Except.ok "r") (fun _ => Except.error "e")
    "  \n\t" (by decide)

/-- Claim C6: given an uploaded file, input acquisition decodes its bytes as
UTF-8 and returns the text; if decoding fails it surfaces a user-visible
error message and returns the empty string. -/
theorem upload_decode_behaviour (decodeUtf8 : List Nat → Except String String)
    (bs : List Nat) :
    (∀ code, decodeUtf8 bs = Except.ok code →
      get_code_from_upload decodeUtf8 (some bs) = (code, [])) ∧
    (∀ e, decodeUtf8 bs = Except.error e →
      get_code_from_upload decodeUtf8 (some bs) = ("", ["Error reading file: " ++ e])) := by
  constructor <;> intro x hx <;> simp [get_code_from_upload, hx]

/-- Witness for C6 at a decoder that fails on the byte `255` with detail
`"bad byte"`. -/
theorem upload_decode_behaviour_witness :
    get_code_from_upload (fun _ => Except.error "bad byte") (some [255]) =
      ("", ["Error reading file: " ++ "bad byte"]) :=
  (upload_decode_behaviour (fun _ => Except.error "bad byte") [255]).2
    "bad byte" rfl

/-- Claim C7: statistics computation is deterministic and idempotent: it is
a pure function of the text (it reads and writes no other state in the
source), so any two computations on the same unmodified text yield the same
triple. -/
theorem stats_deterministic (parse : String → Option PyAst)
    (code1 code2 : String) (h : code1 = code2) :
    get_code_stats parse code1 = get_code_stats parse code2 := by
  rw [h]

/-- Witness for C7 at a concrete repeated computation. -/
theorem stats_deterministic_witness :
    get_code_stats (fun _ => none) "a\nb" = get_code_stats (fun _ => none) "a\nb" :=
  stats_deterministic (fun _ => none) "a\nb" "a\nb" rfl

/-- Claim C8: for the concrete input `"def f():\n    pass\n"` (whose CPython
tree is `astDefF`), `get_code_stats` returns exactly
(lines = 2, functions = 1, classes = 0). -/
theorem stats_example_def_f (parse : String → Option PyAst)
    (h : parse "def f():\n    pass\n" = some astDefF) :
    get_code_stats parse "def f():\n    pass\n" = (2, 1, 0) := by
  simp only [get_code_stats, h]
  decide

/-- Witness for C8 at a parser returning the concrete tree. -/
theorem stats_example_def_f_witness :
    get_code_stats (fun _ => some astDefF) "def f():\n    pass\n" = (2, 1, 0) :=
  stats_example_def_f (fun _ => some astDefF) rfl

/-- Claim C9: `get_code_stats` is total: for every parser (including one
that raises on every input, modelled by `none`) and every input string it
returns a triple of three natural numbers (non-negative by construction);
in the embedding the parse exception is caught by the `try/except`, so no
exception escapes. -/
theorem stats_total (parse : String → Option PyAst) (code : String) :
    ∃ l f c : Nat, get_code_stats parse code = (l, f, c) :=
  ⟨(get_code_stats parse code).1, (get_code_stats parse code).2.1,
    (get_code_stats parse code).2.2, rfl⟩

/-- Witness for C9 at a parser that always raises, on the empty string. -/
theorem stats_total_witness :
    ∃ l f c : Nat, get_code_stats (fun _ => none) "" = (l, f, c) :=
  stats_total (fun _ => none) ""

/-- Claim C10: lambda expressions are not counted as function definitions:
for every input that parses to a tree containing no function-definition,
async-function-definition or class-definition node (so in particular inputs
containing only lambda expressions), `get_code_stats` returns function
count 0 and class count 0. -/
theorem lambdas_not_counted (parse : String → Option PyAst) (code : String)
    (tree : PyAst) (hp : parse code = some tree)
    (h : noDefNoClass tree = true) :
    (get_code_stats parse code).2.1 = 0 ∧ (get_code_stats parse code).2.2 = 0 := by
  have hc := countNode_eq_zero_of_noDefNoClass tree h
  simp [get_code_stats, hp, hc.1, hc.2]

/-- Witness for C10 at the concrete tree of `"f = lambda x: x"`. -/
theorem lambdas_not_counted_witness :
    (get_code_stats (fun _ => some astLambdaOnly) "f = lambda x: x").2.1 = 0 ∧
    (get_code_stats (fun _ => some astLambdaOnly) "f = lambda x: x").2.2 = 0 :=
  lambdas_not_counted (fun _ => some astLambdaOnly) "f = lambda x: x"
    astLambdaOnly rfl (by decide)

end AK
